import Mathlib

/-!
Verification of the ClipGenius batch-download heuristics.

Shallow embedding of the pure string-processing core of the repository:
`clipgenius/utils.py` (URL validation, filename sanitisation, duration
formatting), `clipgenius/batch.py` (URL-list parsing, webpage URL
extraction/merging, filename suggestion) and `clipgenius/downloader.py`
(result objects of `download_video`).

Python strings are modelled as `List Char` (a Python `str` is a sequence of
code points); `String` is used where a function's result is compared with
string literals.  Python integers are `Int`; `//` and `%` with a positive
divisor are Euclidean division `Int.ediv` / `Int.emod`, which agree with
Python's floor semantics for positive divisors.  Absent dictionary keys are
`Option`.  The external collaborators (HTTP fetch, BeautifulSoup passes,
yt-dlp) are parameters: their outputs are inputs of the embedded functions.
-/

/-- Python `\s` (`str.split()` / `str.strip()` whitespace) restricted to the
ASCII range: space, tab, newline, carriage return, vertical tab, form feed. -/
def pyIsSpace (c : Char) : Bool :=
  c = ' ' || c = '\t' || c = '\n' || c = '\r' || c = '\x0b' || c = '\x0c'

/-- Python `str.strip()`: drop leading and trailing whitespace. -/
def pyStrip (l : List Char) : List Char :=
  ((l.dropWhile pyIsSpace).reverse.dropWhile pyIsSpace).reverse

/-- Split a character list at every character satisfying `p`, keeping empty
chunks (the behaviour of Python `str.split(sep)` for a one-character `sep`,
with `p` testing equality with `sep`). -/
def splitOnPred (p : Char → Bool) : List Char → List (List Char)
  | [] => [[]]
  | c :: cs =>
    if p c then [] :: splitOnPred p cs
    else
      match splitOnPred p cs with
      | [] => [[c]]
      | w :: ws => (c :: w) :: ws

/-- Python `str.split()` with no argument: split on whitespace runs,
discarding empty chunks. -/
def pySplitWs (l : List Char) : List (List Char) :=
  (splitOnPred pyIsSpace l).filter (fun w => !w.isEmpty)

/-- Python `' '.join(words)`. -/
def joinWithSpace : List (List Char) → List Char
  | [] => []
  | [w] => w
  | w :: ws => w ++ ' ' :: joinWithSpace ws

/-- Python `' '.join(s.split())`: collapse whitespace runs to single spaces,
dropping leading/trailing whitespace. -/
def joinSplitWs (l : List Char) : List Char :=
  joinWithSpace (pySplitWs l)

/-! ## The `urllib.parse.urlparse` fragment used by `is_valid_url`

`urlsplit` first removes every tab, carriage return and newline from the
URL, then splits off a scheme (the part before the first `:`, accepted when
it starts with an ASCII letter and consists of letters, digits, `+`, `-`,
`.`; it is lowercased) and a network location (the part after a leading
`//` up to the next `/`, `?` or `#`).  A netloc containing `[` without `]`
(or vice versa) raises `ValueError`; a bracketed host must be a valid IPv6
address or an IPvFuture literal, anything else raises.  A raise is modelled
as `none`, which `is_valid_url`'s `except` clause turns into `False`.  The
`_checknetloc` NFKC test returns immediately for ASCII netlocs and is
therefore omitted: the model covers URLs in the ASCII range. -/

/-- Characters allowed in a URL scheme after the leading letter. -/
def isSchemeChar (c : Char) : Bool :=
  c.isAlpha || c.isDigit || c = '+' || c = '-' || c = '.'

/-- Scheme splitting of `urlparse`: returns `(scheme, rest)`.  The scheme is
empty when there is no `:`, the `:` comes first, or a non-scheme character
precedes it. -/
def pySplitScheme (url : List Char) : List Char × List Char :=
  match url.findIdx? (fun c => c = ':') with
  | some i =>
    if 0 < i && (url.take 1).all Char.isAlpha && (url.take i).all isSchemeChar then
      ((url.take i).map Char.toLower, url.drop (i + 1))
    else ([], url)
  | none => ([], url)

/-- Hexadecimal digits `[a-fA-F0-9]` (`ipaddress._HEX_DIGITS` and the
IPvFuture regex class). -/
def pyIsHexDigit (c : Char) : Bool :=
  c.isDigit || ('a' ≤ c && c ≤ 'f') || ('A' ≤ c && c ≤ 'F')

/-- Numeric value of a list of decimal digits (`int(s, 10)`). -/
def natOfDigits (l : List Char) : Nat :=
  l.foldl (fun acc c => acc * 10 + (c.toNat - '0'.toNat)) 0

/-- `ipaddress.IPv4Address._parse_octet` succeeds: non-empty, ASCII digits
only, at most 3 characters, no leading zero, value at most 255. -/
def pyOctetOk (o : List Char) : Bool :=
  !o.isEmpty && o.all Char.isDigit && decide (o.length ≤ 3) &&
  (o = ['0'] || o.headD ' ' ≠ '0') && decide (natOfDigits o ≤ 255)

/-- `ipaddress.IPv4Address(s)` succeeds: no `/`, and exactly four valid
dot-separated octets. -/
def ipv4AddressOk (s : List Char) : Bool :=
  !s.contains '/' &&
    (let octets := splitOnPred (fun c => c = '.') s
     octets.length = 4 && octets.all pyOctetOk)

/-- `ipaddress.IPv6Address._parse_hextet` succeeds: hexadecimal digits only
(the empty string fails `int('', 16)`), at most 4 characters. -/
def hextetOk (h : List Char) : Bool :=
  !h.isEmpty && h.all pyIsHexDigit && decide (h.length ≤ 4)

/-- The group analysis of `ipaddress.IPv6Address._ip_int_from_string` after
the embedded-IPv4 rewrite: at most 9 groups; at most one empty interior
group (the `::`); an empty first/last group only next to the `::`; at least
one group skipped by the `::`; without `::` exactly 8 non-empty groups; all
parsed groups valid hextets. -/
def ipv6GroupsOk (parts : List (List Char)) : Bool :=
  let n := parts.length
  if 9 < n then false
  else
    let interior := (parts.drop 1).take (n - 2)
    if 2 ≤ (interior.filter (fun p => p.isEmpty)).length then false
    else
      match interior.findIdx? (fun p => p.isEmpty) with
      | some j =>
        let i := j + 1
        if (parts.headD ['0']).isEmpty && i ≠ 1 then false
        else if (parts.getLastD ['0']).isEmpty && i ≠ n - 2 then false
        else
          let hi := if (parts.headD ['0']).isEmpty then 0 else i
          let lo := if (parts.getLastD ['0']).isEmpty then 0 else n - i - 1
          decide (hi + lo ≤ 7) && (parts.take hi).all hextetOk &&
            (parts.drop (n - lo)).all hextetOk
      | none =>
        n = 8 && !(parts.headD ['0']).isEmpty && !(parts.getLastD ['0']).isEmpty &&
          parts.all hextetOk

/-- `ipaddress.IPv6Address._ip_int_from_string` succeeds: non-empty, at
least 3 colon-separated groups, a trailing group containing `.` must be a
valid IPv4 address (it is replaced by two hextets), and the group analysis
holds. -/
def ipv6IntOk (ip : List Char) : Bool :=
  !ip.isEmpty &&
    (let parts := splitOnPred (fun c => c = ':') ip
     decide (3 ≤ parts.length) &&
       (if (parts.getLastD []).contains '.' then
          ipv4AddressOk (parts.getLastD []) &&
            ipv6GroupsOk (parts.dropLast ++ [['0'], ['0']])
        else ipv6GroupsOk parts))

/-- `ipaddress.IPv6Address(s)` succeeds: no `/`; an optional `%` zone id
must be non-empty and free of further `%`; the remainder parses as an IPv6
integer. -/
def ipv6AddressOk (s : List Char) : Bool :=
  !s.contains '/' &&
    (if s.contains '%' then
       let addr := s.takeWhile (fun c => c ≠ '%')
       let scope := (s.dropWhile (fun c => c ≠ '%')).drop 1
       !scope.isEmpty && !scope.contains '%' && ipv6IntOk addr
     else ipv6IntOk s)

/-- The IPvFuture regex `\Av[a-fA-F0-9]+\..+\Z` of
`urllib.parse._check_bracketed_host`: `v`, at least one hexadecimal digit,
a dot, then at least one character, none a newline. -/
def ipvFutureOk (h : List Char) : Bool :=
  match h with
  | 'v' :: rest =>
    let hexpart := rest.takeWhile pyIsHexDigit
    (match rest.dropWhile pyIsHexDigit with
     | '.' :: tail => !hexpart.isEmpty && !tail.isEmpty && tail.all (fun c => c ≠ '\n')
     | _ => false)
  | _ => false

/-- `urllib.parse._check_bracketed_host` succeeds: a host starting with `v`
must be an IPvFuture literal; otherwise `ipaddress.ip_address` must parse
it, and an IPv4 address (tried first) is explicitly rejected, so only a
valid IPv6 address passes. -/
def check_bracketed_host (hostname : List Char) : Bool :=
  if hostname.take 1 = ['v'] then ipvFutureOk hostname
  else if ipv4AddressOk hostname then false
  else ipv6AddressOk hostname

/-- The scheme/netloc fragment of `urllib.parse.urlsplit`: remove
`\t`/`\r`/`\n`, split the scheme, extract the netloc after `//` up to the
next `/`, `?` or `#`; `none` models the `ValueError` raised for an
unbalanced bracket or an invalid bracketed host. -/
def urlsplitSN (url : List Char) : Option (List Char × List Char) :=
  let url2 := url.filter (fun c => !(c = '\t' || c = '\r' || c = '\n'))
  let sr := pySplitScheme url2
  let scheme := sr.1
  let rest := sr.2
  if rest.take 2 = ['/', '/'] then
    let netloc := (rest.drop 2).takeWhile (fun c => !(c = '/' || c = '?' || c = '#'))
    if (netloc.contains '[' && !netloc.contains ']') ||
        (netloc.contains ']' && !netloc.contains '[') then none
    else if netloc.contains '[' && netloc.contains ']' then
      let bracketed_host :=
        ((netloc.dropWhile (fun c => c ≠ '[')).drop 1).takeWhile (fun c => c ≠ ']')
      if check_bracketed_host bracketed_host then some (scheme, netloc) else none
    else some (scheme, netloc)
  else some (scheme, [])

/-- `utils.is_valid_url`: `all([result.scheme, result.netloc])` when
`urlparse` returns, `False` when it raises (`except Exception`). -/
def is_valid_url (url : List Char) : Bool :=
  match urlsplitSN url with
  | some sn => !sn.1.isEmpty && !sn.2.isEmpty
  | none => false

/-- The character class of `utils.sanitize_filename`'s regex
`[<>:"/\\|?*]`. -/
def isFilenameForbidden (c : Char) : Bool :=
  c = '<' || c = '>' || c = ':' || c = '"' || c = '/' || c = '\\' ||
  c = '|' || c = '?' || c = '*'

/-- `utils.sanitize_filename`: replace each forbidden character by `_`
(`re.sub(r'[<>:"/\\|?*]', '_', filename)`), collapse whitespace
(`' '.join(filename.split())`), truncate to 200 characters (`[:200]`). -/
def sanitize_filename (filename : String) : String :=
  String.mk ((joinSplitWs (filename.data.map
    (fun c => if isFilenameForbidden c then '_' else c))).take 200)

/-- `utils.format_duration`: `"Unknown"` for `None`, otherwise `h`/`m`/`s`
fields by floor arithmetic with leading zero units dropped. -/
def format_duration : Option Int → String
  | none => "Unknown"
  | some seconds =>
    let hours := Int.ediv seconds 3600
    let minutes := Int.ediv (Int.emod seconds 3600) 60
    let secs := Int.emod seconds 60
    if 0 < hours then
      toString hours ++ "h " ++ toString minutes ++ "m " ++ toString secs ++ "s"
    else if 0 < minutes then
      toString minutes ++ "m " ++ toString secs ++ "s"
    else
      toString secs ++ "s"

/-! ## `batch.py`: URL-list parsing, webpage URL extraction, filename
suggestion -/

/-- The domain allow-list of `BatchDownloader._is_video_url`. -/
def video_platforms : List (List Char) :=
  ["youtube.com".data, "youtu.be".data, "vimeo.com".data, "dailymotion.com".data,
   "twitch.tv".data, "tiktok.com".data, "instagram.com".data, "facebook.com".data,
   "twitter.com".data, "x.com".data, "rumble.com".data, "bitchute.com".data]

/-- Python substring containment `needle in haystack` on character lists:
some suffix of the haystack starts with the needle. -/
def isSubstring (needle : List Char) : List Char → Bool
  | [] => needle.isEmpty
  | c :: cs => needle.isPrefixOf (c :: cs) || isSubstring needle cs

/-- `BatchDownloader._is_video_url`: valid URL whose lowercased netloc has a
known platform as a substring; the second `urlparse` call sits in its own
`try`/`except` returning `False` on a raise. -/
def is_video_url (url : List Char) : Bool :=
  is_valid_url url &&
    (match urlsplitSN url with
     | some sn =>
       let domain := sn.2.map Char.toLower
       video_platforms.any (fun platform => isSubstring platform domain)
     | none => false)

/-- `BatchDownloader.parse_url_list`: replace `,` by newline, split on
newlines, strip each line, keep non-empty lines passing `is_valid_url`. -/
def parse_url_list (url_list_text : List Char) : List (List Char) :=
  let lines := splitOnPred (fun c => c = '\n')
    (url_list_text.map (fun c => if c = ',' then '\n' else c))
  (lines.map pyStrip).filter (fun line => !line.isEmpty && is_valid_url line)

/-- `BatchDownloader.extract_video_urls_from_webpage`, after the fetch: the
three extraction passes (anchor hrefs, iframe sources, regex over raw text)
are merged into the set `video_urls` (modelled as a deduplicated list), each
member is kept when `is_valid_url` and `_is_video_url` hold, and the result
is again turned into a set (`list(set(valid_urls))`). -/
def extract_video_urls_from_webpage
    (linkUrls iframeUrls textUrls : List (List Char)) : List (List Char) :=
  let video_urls := (linkUrls ++ iframeUrls ++ textUrls).dedup
  let valid_urls := video_urls.filter (fun url => is_valid_url url && is_video_url url)
  valid_urls.dedup

/-- Python `\w` for the ASCII range: letters, digits and underscore (the
class used by `re.sub(r'[^\w\s-]', '', title)`). -/
def isWordChar (c : Char) : Bool :=
  c.isAlpha || c.isDigit || c = '_'

/-- The video metadata fields `BatchDownloader.suggest_filename` reads.
`none` models an absent key (or a `None` value, which the code treats the
same way: the `dict.get` default is only used for absent keys, and a `None`
value is falsy exactly like the skipped defaults). -/
structure VideoInfo where
  title : Option String := none
  uploader : Option String := none
  duration : Option Int := none
deriving DecidableEq

/-- The decimal rendering Python `str`/f-strings use for an integer,
as a character list (`Int.repr` agrees with Python for the values at hand:
non-negative integers). -/
def intStr (n : Int) : List Char :=
  (Int.repr n).data

/-- Python `str.lower()` restricted to ASCII case mapping. -/
def pyLower (l : List Char) : List Char :=
  l.map Char.toLower

/-- The uploader part of `suggest_filename`: appended when the uploader is
truthy and not `'unknown'` (case-insensitive), truncated to 20 characters. -/
def uploader_part (uploader : List Char) : Option (List Char) :=
  if !uploader.isEmpty && pyLower uploader != "unknown".data then
    some (uploader.take 20)
  else none

/-- The title part of `suggest_filename`: appended when the title is truthy
and not `'unknown'` (case-insensitive); `re.sub(r'[^\w\s-]', '', title)`
keeps word characters, whitespace and hyphens, then whitespace is collapsed
(`' '.join(clean_title.split())`) and the result truncated to 50
characters. -/
def title_part (title : List Char) : Option (List Char) :=
  if !title.isEmpty && pyLower title != "unknown".data then
    some ((joinSplitWs (title.filter
      (fun c => isWordChar c || pyIsSpace c || c = '-'))).take 50)
  else none

/-- The duration part of `suggest_filename`: appended when the duration is
truthy and `> 0`; `minutes = duration // 60`, and the `"{hours}h{minutes}m"`
form is used only when `minutes > 60` (strictly), else `"{minutes}m"`. -/
def duration_part (duration : Int) : Option (List Char) :=
  if duration != 0 && decide (0 < duration) then
    let minutes := Int.ediv duration 60
    if 60 < minutes then
      some (intStr (Int.ediv minutes 60) ++ 'h' :: intStr (Int.emod minutes 60) ++ ['m'])
    else
      some (intStr minutes ++ ['m'])
  else none

/-- The `filename_parts` list `suggest_filename` accumulates, in order:
uploader part, title part, duration part, each present under its own
condition. -/
def filename_parts (video_info : VideoInfo) : List (List Char) :=
  (uploader_part (video_info.uploader.getD "unknown").data).toList ++
  (title_part (video_info.title.getD "unknown").data).toList ++
  (duration_part (video_info.duration.getD 0)).toList

/-- Python `sep.join(parts)`. -/
def joinWithSep (sep : List Char) : List (List Char) → List Char
  | [] => []
  | [w] => w
  | w :: ws => w ++ sep ++ joinWithSep sep ws

/-- `BatchDownloader.suggest_filename`: join the parts with `" - "`; fall
back to `"video_download"` when the joined name is falsy or blank
(`if not suggested_name or suggested_name.strip() == ""`). -/
def suggest_filename (video_info : VideoInfo) : String :=
  let suggested_name := joinWithSep " - ".data (filename_parts video_info)
  if suggested_name = [] ∨ pyStrip suggested_name = [] then
    "video_download"
  else String.mk suggested_name

/-! ## `downloader.py`: the result object of `download_video`

The yt-dlp calls are external; the outcome of `ydl.download([url])` is a
parameter of type `Except String Unit`, whose `error` carries `str(e)` of
the raised exception.  `download_video` never re-raises: each branch of the
`try`/`except` produces a result dictionary. -/

/-- The result dictionary of the download methods: `success`, `message`,
plus `error` (failure only) and `path` (success only). -/
structure DownloadResult where
  success : Bool
  message : String
  error : Option String := none
  path : Option String := none
deriving DecidableEq

/-- `VideoDownloader.download_video` with the collaborator call abstracted:
on success the `{'success': True, ...}` dictionary with the download path,
on an exception `e` the `{'success': False, 'error': str(e), 'message':
f'Download failed: {str(e)}'}` dictionary. -/
def download_video (download_path : String) (_url : String)
    (_format_id : Option String) (_audio_only : Bool)
    (_custom_filename : Option String)
    (outcome : Except String Unit) : DownloadResult :=
  match outcome with
  | Except.ok _ =>
    { success := true
      message := "Download completed successfully!"
      path := some download_path }
  | Except.error e =>
    { success := false
      error := some e
      message := "Download failed: " ++ e }

/-! ## Spec-side definitions (for refinement comparisons) -/

/-- The character filter of the amended title rule: keep letters, digits,
underscore, whitespace and hyphen (the spec sentence omits the
underscore, which Python's `\w` class retains). -/
def title_part_spec (title : List Char) : List Char :=
  (joinSplitWs (title.filter
    (fun c => c.isAlpha || c.isDigit || c = '_' || pyIsSpace c || c = '-'))).take 50

/-- The spec's reading of the duration renderer on a non-negative number of
seconds: `h`/`m`/`s` by floor arithmetic, leading zero units dropped. -/
def format_duration_render (n : Nat) : String :=
  if 0 < n / 3600 then
    toString (n / 3600) ++ "h " ++ toString (n % 3600 / 60) ++ "m " ++ toString (n % 60) ++ "s"
  else if 0 < n % 3600 / 60 then
    toString (n % 3600 / 60) ++ "m " ++ toString (n % 60) ++ "s"
  else
    toString (n % 60) ++ "s"

/-- The spec's reading of the URL-list splitter: split the text on newline
and comma separators. -/
def split_entries_spec (text : List Char) : List (List Char) :=
  splitOnPred (fun c => c = '\n' || c = ',') text

/-! ## Shared helper lemmas -/

theorem splitOnPred_ne_nil (p : Char → Bool) (l : List Char) :
    splitOnPred p l ≠ [] := by
  cases l with
  | nil => simp [splitOnPred]
  | cons c cs =>
    simp only [splitOnPred]
    split
    · simp
    · cases h : splitOnPred p cs <;> simp

theorem mem_of_mem_splitOnPred (p : Char → Bool) (l : List Char) :
    ∀ w ∈ splitOnPred p l, ∀ c ∈ w, c ∈ l := by
  induction l with
  | nil =>
    intro w hw c hc
    simp [splitOnPred] at hw
    subst hw
    simp at hc
  | cons a as ih =>
    intro w hw c hc
    simp only [splitOnPred] at hw
    split at hw
    · rcases List.mem_cons.mp hw with h | h
      · subst h; simp at hc
      · exact List.mem_cons_of_mem a (ih w h c hc)
    · cases hsp : splitOnPred p as with
      | nil => exact absurd hsp (splitOnPred_ne_nil p as)
      | cons v vs =>
        rw [hsp] at hw
        rcases List.mem_cons.mp hw with h | h
        · subst h
          rcases List.mem_cons.mp hc with h' | h'
          · exact List.mem_cons.mpr (Or.inl h')
          · exact List.mem_cons_of_mem a
              (ih v (hsp ▸ List.mem_cons_self v vs) c h')
        · exact List.mem_cons_of_mem a
            (ih w (hsp ▸ List.mem_cons_of_mem v h) c hc)

theorem mem_joinWithSpace (ws : List (List Char)) :
    ∀ c ∈ joinWithSpace ws, c = ' ' ∨ ∃ w ∈ ws, c ∈ w := by
  induction ws with
  | nil => intro c hc; simp [joinWithSpace] at hc
  | cons w ws ih =>
    intro c hc
    cases ws with
    | nil =>
      simp only [joinWithSpace] at hc
      exact Or.inr ⟨w, List.mem_cons_self w [], hc⟩
    | cons v vs =>
      simp only [joinWithSpace, List.mem_append, List.mem_cons] at hc
      rcases hc with h | h | h
      · exact Or.inr ⟨w, List.mem_cons_self w _, h⟩
      · exact Or.inl h
      · rcases ih c h with h' | ⟨u, hu, hc'⟩
        · exact Or.inl h'
        · exact Or.inr ⟨u, List.mem_cons_of_mem w hu, hc'⟩

theorem mem_joinSplitWs (l : List Char) :
    ∀ c ∈ joinSplitWs l, c = ' ' ∨ c ∈ l := by
  intro c hc
  rcases mem_joinWithSpace _ c hc with h | ⟨w, hw, hc'⟩
  · exact Or.inl h
  · have hw' : w ∈ splitOnPred pyIsSpace l := List.mem_of_mem_filter hw
    exact Or.inr (mem_of_mem_splitOnPred pyIsSpace l w hw' c hc')

theorem splitNewlineComma (l : List Char) :
    splitOnPred (fun c => c = '\n') (l.map (fun c => if c = ',' then '\n' else c)) =
    splitOnPred (fun c => c = '\n' || c = ',') l := by
  induction l with
  | nil => rfl
  | cons c cs ih =>
    by_cases hc : c = ','
    · subst hc; simp [splitOnPred, ih]
    · by_cases hn : c = '\n'
      · subst hn; simp [splitOnPred, ih]
      · simp [splitOnPred, hc, hn, ih]

theorem intEdiv_cast_3600 (m : Nat) :
    Int.ediv (m : Int) 3600 = ((m / 3600 : Nat) : Int) := rfl

theorem intEmod_cast_3600 (m : Nat) :
    Int.emod (m : Int) 3600 = ((m % 3600 : Nat) : Int) := rfl

theorem intEdiv_cast_60 (m : Nat) :
    Int.ediv (m : Int) 60 = ((m / 60 : Nat) : Int) := rfl

theorem intEmod_cast_60 (m : Nat) :
    Int.emod (m : Int) 60 = ((m % 60 : Nat) : Int) := rfl

theorem toString_intCast (m : Nat) : toString ((m : Nat) : Int) = toString m := rfl

/-! ## Claim theorems -/

/-- C1 counterexample: at duration 3600 seconds — exactly 60 minutes, hence
"60 minutes or more" — the code appends `"60m"`, not the `"1h0m"` the claim
requires: the hour form is taken only when `duration // 60 > 60` strictly. -/
theorem suggest_filename_hour_boundary_counterexample :
    duration_part 3600 = some "60m".data ∧
    duration_part 3600 ≠ some "1h0m".data ∧
    suggest_filename { duration := some 3600 } = "60m" := by decide

/-- C1 (amended): for every integer duration `> 0`, the duration part
appended by `suggest_filename` is `"{minutes}m"` (with
`minutes = duration // 60`) whenever `duration // 60 ≤ 60` — i.e. for all
durations up to and including 60 whole minutes — and is
`"{hours}h{minutes}m"` (floor arithmetic) only when `duration // 60 > 60`,
i.e. from 61 whole minutes on. -/
theorem duration_part_form (d : Int) (hd : 0 < d) :
    (Int.ediv d 60 ≤ 60 →
      duration_part d = some (intStr (Int.ediv d 60) ++ ['m'])) ∧
    (60 < Int.ediv d 60 →
      duration_part d = some (intStr (Int.ediv (Int.ediv d 60) 60) ++
        'h' :: intStr (Int.emod (Int.ediv d 60) 60) ++ ['m'])) := by
  have hne : (d != 0) = true := by simp [hd.ne']
  constructor
  · intro hle
    simp [duration_part, hne, hd, if_neg (not_lt.mpr hle)]
  · intro hlt
    simp [duration_part, hne, hd, hlt]

/-- Witness for the amended C1: 125 seconds (2 whole minutes) takes the
minute form, 3725 seconds (62 whole minutes) the hour form. -/
theorem duration_part_form_witness :
    duration_part 125 = some (intStr (Int.ediv 125 60) ++ ['m']) ∧
    duration_part 3725 = some (intStr (Int.ediv (Int.ediv 3725 60) 60) ++
      'h' :: intStr (Int.emod (Int.ediv 3725 60) 60) ++ ['m']) :=
  ⟨(duration_part_form 125 (by decide)).1 (by decide),
   (duration_part_form 3725 (by decide)).2 (by decide)⟩

/-- C2 counterexample: a title containing an underscore.  Python's `\w`
class retains underscores, so the code keeps `"a_b"` unchanged, while the
claim's character set {letters, digits, whitespace, hyphen} would strip the
underscore to `"ab"`. -/
theorem title_part_underscore_counterexample :
    suggest_filename { title := some "a_b" } = "a_b" ∧
    title_part "a_b".data = some "a_b".data ∧
    title_part "a_b".data ≠ some "ab".data := by decide

/-- C2 (amended): for every present title that is not case-insensitively
`"unknown"`, the title part used by `suggest_filename` is the title with
every character outside {letters, digits, underscore, whitespace, hyphen}
removed, internal whitespace collapsed to single spaces, truncated to 50
characters. -/
theorem title_part_keeps_word_chars (title : List Char)
    (h : (!title.isEmpty && pyLower title != "unknown".data) = true) :
    title_part title = some (title_part_spec title) := by
  rw [title_part, if_pos h, title_part_spec]
  have hfun : ∀ c ∈ title,
      (isWordChar c || pyIsSpace c || c = '-') =
      (c.isAlpha || c.isDigit || c = '_' || pyIsSpace c || c = '-') := by
    intro c _
    simp [isWordChar, Bool.or_assoc]
  rw [List.filter_congr hfun]

/-- Witness for the amended C2 at the spec's own example title. -/
theorem title_part_keeps_word_chars_witness :
    title_part "Amazing Video!! #1".data =
      some (title_part_spec "Amazing Video!! #1".data) :=
  title_part_keeps_word_chars "Amazing Video!! #1".data (by decide)

/-- C8: whenever the accumulated parts list is empty, or the joined name is
blank after whitespace-trimming, `suggest_filename` returns the literal
`"video_download"` (the function is pure, so identical metadata yields an
identical result by construction). -/
theorem suggest_filename_fallback (video_info : VideoInfo)
    (h : filename_parts video_info = [] ∨
      pyStrip (joinWithSep " - ".data (filename_parts video_info)) = []) :
    suggest_filename video_info = "video_download" := by
  rcases h with h | h
  · simp [suggest_filename, h, joinWithSep]
  · simp [suggest_filename, h]

/-- Witness for C8: the empty metadata mapping produces no parts, so the
fallback fires. -/
theorem suggest_filename_fallback_witness :
    suggest_filename { } = "video_download" :=
  suggest_filename_fallback { } (Or.inl (by decide))

/-- C10: `suggest_filename` does not sanitise the uploader part — for
uploader `"a/b"` the suggested name is exactly `"a/b"`, which contains the
filesystem-forbidden character `/`. -/
theorem suggest_filename_uploader_unsanitized :
    suggest_filename { uploader := some "a/b" } = "a/b" ∧
    '/' ∈ (suggest_filename { uploader := some "a/b" }).data ∧
    isFilenameForbidden '/' = true := by decide

/-- C3: for every download path, URL and option set, when the collaborator
call raises an exception `e`, `download_video` returns (rather than
re-raises — the embedded function is total, each branch of the
`try`/`except` yields a result) a mapping with `success = false`, the error
detail `str(e)`, and the non-empty message `"Download failed: " ++ str(e)`. -/
theorem download_video_error_result (download_path url : String)
    (format_id : Option String) (audio_only : Bool)
    (custom_filename : Option String) (e : String) :
    download_video download_path url format_id audio_only custom_filename
        (Except.error e) =
      { success := false, error := some e,
        message := "Download failed: " ++ e } ∧
    (download_video download_path url format_id audio_only custom_filename
        (Except.error e)).success = false ∧
    0 < (download_video download_path url format_id audio_only custom_filename
        (Except.error e)).message.length := by
  refine ⟨rfl, rfl, ?_⟩
  show 0 < ("Download failed: " ++ e).length
  simp [String.length_append]
  exact Or.inl (by decide)

/-- C7: the merged result of the three extraction passes of
`extract_video_urls_from_webpage` never contains a URL twice, and a link
present in both the anchor pass and the raw-text pass appears exactly once
in the result. -/
theorem extract_video_urls_nodup :
    (∀ linkUrls iframeUrls textUrls : List (List Char),
      (extract_video_urls_from_webpage linkUrls iframeUrls textUrls).Nodup) ∧
    (extract_video_urls_from_webpage
        ["https://www.youtube.com/watch?v=abc".data] []
        ["https://www.youtube.com/watch?v=abc".data]).count
      "https://www.youtube.com/watch?v=abc".data = 1 := by
  constructor
  · intro linkUrls iframeUrls textUrls
    exact List.nodup_dedup _
  · decide

/-- C4: on every non-negative integer, `format_duration` renders
`"{h}h {m}m {s}s"` with leading zero units dropped, and the spec's three
examples hold. -/
theorem format_duration_spec_correct :
    (∀ n : Nat, format_duration (some (n : Int)) = format_duration_render n) ∧
    format_duration (some 3725) = "1h 2m 5s" ∧
    format_duration (some 45) = "45s" ∧
    format_duration none = "Unknown" := by
  refine ⟨?_, by decide, by decide, rfl⟩
  intro n
  simp only [format_duration, format_duration_render, intEdiv_cast_3600,
    intEmod_cast_3600, intEdiv_cast_60, intEmod_cast_60, toString_intCast,
    Int.natCast_pos]

/-- C5: `sanitize_filename` (replace the nine forbidden characters by `_`,
collapse whitespace, truncate to 200) yields a result without any forbidden
character and of length at most 200, and the spec's example sanitises as
required. -/
theorem sanitize_filename_no_forbidden :
    (∀ filename : String,
      ((sanitize_filename filename).data.all
        (fun c => !(isFilenameForbidden c))) = true ∧
      (sanitize_filename filename).data.length ≤ 200) ∧
    sanitize_filename "My:Video/Clip?\"Test" = "My_Video_Clip__Test" := by
  refine ⟨?_, by decide⟩
  intro filename
  constructor
  · rw [List.all_eq_true]
    intro c hc
    have hc2 : c ∈ (joinSplitWs (filename.data.map
        (fun x => if isFilenameForbidden x then '_' else x))).take 200 := hc
    have hc' := List.take_subset _ _ hc2
    rcases mem_joinSplitWs _ c hc' with h | h
    · subst h; decide
    · rcases List.mem_map.mp h with ⟨a, _, ha⟩
      subst ha
      by_cases hf : isFilenameForbidden a = true
      · simp [hf]
        decide
      · rw [Bool.not_eq_true] at hf
        simp [hf]
  · show ((joinSplitWs (filename.data.map
        (fun x => if isFilenameForbidden x then '_' else x))).take 200).length ≤ 200
    exact List.length_take_le 200 _

/-- C6: `parse_url_list` splits its input on newlines and commas, trims each
entry, and keeps exactly the entries passing `is_valid_url`, in order; the
spec's example holds and duplicates are retained. -/
theorem parse_url_list_spec_correct :
    (∀ text : List Char,
      parse_url_list text =
        ((split_entries_spec text).map pyStrip).filter is_valid_url) ∧
    parse_url_list "a.com\nnot a url,https://b.com".data =
      ["https://b.com".data] ∧
    parse_url_list "https://b.com,https://b.com".data =
      ["https://b.com".data, "https://b.com".data] := by
  refine ⟨?_, by decide, by decide⟩
  intro text
  simp only [parse_url_list, split_entries_spec]
  rw [splitNewlineComma]
  refine List.filter_congr ?_
  intro x _
  cases x with
  | nil => decide
  | cons a l => simp [List.isEmpty]

